import Mathlib

/-!
Verification of the PurpleAir AQI estimation script (`src/scripts/purple.py`).

Modelling conventions:
* Python floats are modelled as exact rationals (`ℚ`); the script's arithmetic
  is plain field arithmetic, so `ℚ` is the idealised semantics.
* `round(x, 1)` and `round(x)` use Python's round-half-to-even, modelled by
  `pyRoundInt` / `round1`.
* The haversine `distance` function involves `sin`, `cos`, `atan2`, `sqrt`,
  which have no executable rational semantics; the geometry is therefore kept
  as an injected distance capability `dist : ℚ → ℚ → ℚ` (the spec itself treats
  the distance unit as opaque).  All claims settled here are independent of the
  concrete distance values.
* The `IsolationForest` anomaly detector is an external, randomised library
  call; it is modelled by its verdict vector `mask : List Bool` (`true` =
  inlier, i.e. `yhat != -1`), supplied as an oracle input.
* Fallible steps are modelled with `Except PipeError`; the error constructors
  correspond to the unhandled Python exceptions the script can raise in its
  numeric core.
-/

namespace Purple

/-- `PM_25_UPPER_LIMIT = 500` (exclusive), from the script's constants. -/
def PM_25_UPPER_LIMIT : ℚ := 500

/-- `PM_25_LOWER_LIMIT = 0` (inclusive), from the script's constants. -/
def PM_25_LOWER_LIMIT : ℚ := 0

/-- LRAPA correction `0.5*x - 0.66` (present in the source, unused). -/
def LRAPA (x : ℚ) : ℚ := 0.5 * x - 0.66

/-- EPA correction `max(0.534*x - 0.0844*h + 5.604, 0)`. -/
def EPA (x h : ℚ) : ℚ := max (0.534 * x - 0.0844 * h + 5.604) 0

/-- The fixed AQI breakpoint table `(Blo, Bhi, Ilo, Ihi)` from the source. -/
def breakpoints : List (ℚ × ℚ × ℚ × ℚ) :=
  [(0.0, 12.0, 0, 50),
   (12.1, 35.4, 51, 100),
   (35.5, 55.4, 101, 150),
   (55.5, 150.4, 151, 200),
   (150.5, 250.4, 201, 300),
   (250.5, 350.4, 301, 400),
   (350.5, 500.4, 401, 500)]

/-- Python's `round` to an integer: round half to even (banker's rounding). -/
def pyRoundInt (q : ℚ) : ℤ :=
  let f := ⌊q⌋
  let r := q - (f : ℚ)
  if r < 1/2 then f
  else if 1/2 < r then f + 1
  else if f % 2 = 0 then f else f + 1

/-- Python's `round(x, 1)`: round to one decimal place, half to even. -/
def round1 (q : ℚ) : ℚ := (pyRoundInt (q * 10) : ℚ) / 10

/-- The breakpoint scan of `AQI`: first row whose inclusive-inclusive range
contains `cp` wins; when no row matches the function returns the sentinel
`501` ("Beyond the AQI"). -/
def AQIscan : List (ℚ × ℚ × ℚ × ℚ) → ℚ → ℚ
  | [], _ => 501
  | (blo, bhi, ilo, ihi) :: rest, cp =>
      if blo ≤ cp ∧ cp ≤ bhi then (ihi - ilo) / (bhi - blo) * (cp - blo) + ilo
      else AQIscan rest cp

/-- `AQI(pm25)` from the source: round to one decimal, scan the table. -/
def AQI (pm25 : ℚ) : ℚ := AQIscan breakpoints (round1 pm25)

/-- A sensor-directory entry, with the fields the script reads: `ID`,
optional `Lat`/`Lon`, `DEVICE_LOCATIONTYPE` (defaulted to `""` by `.get`),
and the `Hidden` string flag. -/
structure SensorRecord where
  id : ℤ
  lat : Option ℚ
  lon : Option ℚ
  locType : String
  hidden : String
deriving DecidableEq, Repr

/-- A selected sensor: `{'id': ..., 'distance': d}`. -/
structure SelectedSensor where
  id : ℤ
  dist : ℚ
deriving DecidableEq, Repr

/-- The per-record test of the selection loop: both coordinates present, and
`DEVICE_LOCATIONTYPE == 'outside' and Hidden == 'false' and d < radius`;
returns the computed distance when the record qualifies.  `dist` is the
injected haversine-distance capability applied to the record's coordinates. -/
def sensorPred (dist : ℚ → ℚ → ℚ) (radius : ℚ) (i : SensorRecord) : Option ℚ :=
  match i.lat, i.lon with
  | some la, some lo =>
      if i.locType = "outside" ∧ i.hidden = "false" ∧ dist la lo < radius
      then some (dist la lo) else none
  | _, _ => none

/-- The selection loop of the script, with `cnt` the current length of the
accumulated list; `if len(sensors) == max_sensors: break` is tested after each
append, which is the `cnt + 1 = maxS` test here. -/
def geoFilterGo (dist : ℚ → ℚ → ℚ) (radius : ℚ) (maxS : ℤ) :
    ℤ → List SensorRecord → List SelectedSensor
  | _, [] => []
  | cnt, i :: rest =>
      match sensorPred dist radius i with
      | some d =>
          if cnt + 1 = maxS then [⟨i.id, d⟩]
          else ⟨i.id, d⟩ :: geoFilterGo dist radius maxS (cnt + 1) rest
      | none => geoFilterGo dist radius maxS cnt rest

/-- GeoFilter: the sensor-selection loop of the script (lines 120–129). -/
def geoFilter (dist : ℚ → ℚ → ℚ) (radius : ℚ) (maxS : ℤ)
    (dir : List SensorRecord) : List SelectedSensor :=
  geoFilterGo dist radius maxS 0 dir

/-- All qualifying sensors of the directory, in directory order, with no count
cap — the specification-side description of GeoFilter's selection, used to
state the refinement `geoFilter = take ∘ selectAll`. -/
def selectAll (dist : ℚ → ℚ → ℚ) (radius : ℚ) (dir : List SensorRecord) :
    List SelectedSensor :=
  dir.filterMap fun i => (sensorPred dist radius i).map fun d => ⟨i.id, d⟩

/-- One channel of a sensor reading: `pm2_5_cf_1` and `AGE` (minutes). -/
structure Channel where
  pm : ℚ
  age : ℤ
deriving DecidableEq, Repr

/-- A two-channel sensor reading; humidity is stored on channel a only. -/
structure Reading where
  a : Channel
  b : Channel
  humidity : ℚ
deriving DecidableEq, Repr

/-- The per-channel validity test (lines 176/178):
`age < max_age and raw >= PM_25_LOWER_LIMIT and raw < PM_25_UPPER_LIMIT and d >= 0`. -/
def validate (maxAge age : ℤ) (raw d : ℚ) : Bool :=
  decide (age < maxAge) && decide (PM_25_LOWER_LIMIT ≤ raw) &&
    decide (raw < PM_25_UPPER_LIMIT) && decide (0 ≤ d)

/-- The fetch-and-validate loop (lines 153–179): for each selected sensor,
fetch its reading, set the proximity weight `d = radius - distance`, and append
each channel that passes `validate` as an independent `(raw, d, humidity)`
point. -/
def buildData (radius : ℚ) (maxAge : ℤ) (fetch : ℤ → Reading) :
    List SelectedSensor → List (ℚ × ℚ × ℚ)
  | [] => []
  | i :: rest =>
      (let j := fetch i.id
       let d := radius - i.dist
       (if validate maxAge j.a.age j.a.pm d then [(j.a.pm, d, j.humidity)] else []) ++
         (if validate maxAge j.b.age j.b.pm d then [(j.b.pm, d, j.humidity)] else []))
        ++ buildData radius maxAge fetch rest

/-- NumPy boolean indexing `data[mask]`: keep the points whose mask entry is
`true` (`yhat != -1`, i.e. inliers). -/
def applyMask (mask : List Bool) (data : List (ℚ × ℚ × ℚ)) : List (ℚ × ℚ × ℚ) :=
  ((mask.zip data).filter fun p => p.1).map fun p => p.2

/-- Lines 185–189: `noutliers = len(mask) - sum(mask)` counts the `false`
entries, and the flagged points are dropped only inside
`if verbose and noutliers > 0:`. -/
def outlierStep (verbose : Bool) (mask : List Bool) (data : List (ℚ × ℚ × ℚ)) :
    List (ℚ × ℚ × ℚ) :=
  if verbose = true ∧ 0 < mask.count false then applyMask mask data else data

/-- One iteration of the aggregation loop (lines 199–202) on the accumulator
`(t, dt)`: `dt += x[1]; t += EPA(x[0], x[2]) * x[1]`. -/
def step (p : ℚ × ℚ) (x : ℚ × ℚ × ℚ) : ℚ × ℚ :=
  (p.1 + EPA x.1 x.2.2 * x.2.1, p.2 + x.2.1)

/-- The aggregation loop: fold `step` over the data from `(0, 0)`. -/
def aggFold (pts : List (ℚ × ℚ × ℚ)) : ℚ × ℚ := pts.foldl step (0, 0)

/-- The aggregated concentration `t / dt` produced by the loop. -/
def aggregate (pts : List (ℚ × ℚ × ℚ)) : ℚ := (aggFold pts).1 / (aggFold pts).2

/-- `Σ weight_i` over the working set. -/
def wsum (pts : List (ℚ × ℚ × ℚ)) : ℚ := (pts.map fun x => x.2.1).sum

/-- `Σ EPA(raw_i, humidity_i) · weight_i` over the working set. -/
def tsumEPA (pts : List (ℚ × ℚ × ℚ)) : ℚ :=
  (pts.map fun x => EPA x.1 x.2.2 * x.2.1).sum

/-- The unhandled Python exceptions of the numeric core:
`indexError` is `data[:,0]` on the empty array (line 182);
`zeroDivisionError` is `t/dt` on plain-float zeros, reached when the outlier
step removed every point of a non-empty batch (line 204). -/
inductive PipeError where
  | indexError
  | zeroDivisionError
deriving DecidableEq, Repr

/-- Lines 181–204, from the validated working set to the rounded AQI.
Branches, in the order Python hits them:
* empty batch: `data[:,0]` raises `IndexError`;
* the outlier step emptied a non-empty batch: `t` and `dt` stay the plain
  Python float `0.0` and `t/dt` raises `ZeroDivisionError`;
* non-empty surviving set with weight sum `0`: the NumPy division yields
  `nan` (or `±inf`); every breakpoint comparison on such a value is false, so
  `AQI` returns the sentinel `501` and `round(501) = 501` — modelled by the
  explicit `ok 501`;
* otherwise `round(AQI(t/dt))`. -/
def runCore (verbose : Bool) (mask : List Bool) (data : List (ℚ × ℚ × ℚ)) :
    Except PipeError ℤ :=
  if data = [] then Except.error PipeError.indexError
  else if outlierStep verbose mask data = [] then Except.error PipeError.zeroDivisionError
  else if (aggFold (outlierStep verbose mask data)).2 = 0 then Except.ok 501
  else Except.ok (pyRoundInt (AQI (aggregate (outlierStep verbose mask data))))

/-- The whole measurement-aggregation pipeline: GeoFilter, fetch-and-validate,
then the numeric core.  `dist` is the injected distance capability, `mask` the
anomaly detector's verdicts. -/
def pipeline (dist : ℚ → ℚ → ℚ) (verbose : Bool) (radius : ℚ) (maxS maxAge : ℤ)
    (dir : List SensorRecord) (fetch : ℤ → Reading) (mask : List Bool) :
    Except PipeError ℤ :=
  runCore verbose mask (buildData radius maxAge fetch (geoFilter dist radius maxS dir))

/-- Concrete outdoor, visible sensor at the target location (test fixture). -/
def sensor0 : SensorRecord := ⟨0, some 0, some 0, "outside", "false"⟩

/-- A second concrete qualifying sensor (test fixture). -/
def sensor1 : SensorRecord := ⟨1, some 0, some 0, "outside", "false"⟩

/-- A fresh two-channel reading with raw values 10 and 400, humidity 0. -/
def reading0 : Reading := ⟨⟨10, 0⟩, ⟨400, 0⟩, 0⟩

/-- A fetcher returning `reading0` for every sensor id (test fixture). -/
def fetch0 : ℤ → Reading := fun _ => reading0

/-- A fetcher whose two channels are both stale: age 99 (test fixture). -/
def fetchStale : ℤ → Reading := fun _ => ⟨⟨10, 99⟩, ⟨400, 99⟩, 0⟩

/-- A degenerate distance capability returning 0 (test fixture). -/
def dist0 : ℚ → ℚ → ℚ := fun _ _ => 0

end Purple
namespace Purple

/-! ### Helper lemmas -/

theorem sensorPred_lt {dist : ℚ → ℚ → ℚ} {radius : ℚ} {i : SensorRecord} {d : ℚ}
    (h : sensorPred dist radius i = some d) : d < radius := by
  unfold sensorPred at h
  split at h
  · split_ifs at h with hc
    cases h; exact hc.2.2
  · simp at h

theorem geoFilterGo_mem {dist : ℚ → ℚ → ℚ} {radius : ℚ} {maxS : ℤ} :
    ∀ (l : List SensorRecord) (cnt : ℤ) (s : SelectedSensor),
      s ∈ geoFilterGo dist radius maxS cnt l → s.dist < radius := by
  intro l
  induction l with
  | nil => intro cnt s h; simp [geoFilterGo] at h
  | cons i rest ih =>
    intro cnt s h
    simp only [geoFilterGo] at h
    cases hp : sensorPred dist radius i with
    | none => rw [hp] at h; exact ih _ _ h
    | some d =>
      rw [hp] at h
      split_ifs at h with hc
      · rcases List.mem_singleton.mp h with rfl
        exact sensorPred_lt hp
      · rcases List.mem_cons.mp h with rfl | h2
        · exact sensorPred_lt hp
        · exact ih _ _ h2

theorem geoFilter_mem {dist : ℚ → ℚ → ℚ} {radius : ℚ} {maxS : ℤ}
    {dir : List SensorRecord} {s : SelectedSensor}
    (h : s ∈ geoFilter dist radius maxS dir) : s.dist < radius :=
  geoFilterGo_mem dir 0 s h

theorem geoFilterGo_eq_take {dist : ℚ → ℚ → ℚ} {radius : ℚ} {maxS : ℤ} :
    ∀ (l : List SensorRecord) (cnt : ℤ), cnt < maxS →
      geoFilterGo dist radius maxS cnt l =
        (selectAll dist radius l).take (maxS - cnt).toNat := by
  intro l
  induction l with
  | nil => intro cnt h; simp [geoFilterGo, selectAll]
  | cons i rest ih =>
    intro cnt h
    simp only [geoFilterGo, selectAll, List.filterMap_cons]
    cases hp : sensorPred dist radius i with
    | none => simpa [selectAll] using ih cnt h
    | some d =>
      simp only [Option.map_some']
      split_ifs with hc
      · have h1 : (maxS - cnt).toNat = 1 := by omega
        simp [h1]
      · have h2 : cnt + 1 < maxS := by omega
        rw [ih (cnt + 1) h2]
        have h3 : (maxS - cnt).toNat = (maxS - (cnt + 1)).toNat + 1 := by omega
        rw [h3, List.take_succ_cons]
        rfl

theorem wsum_nonneg : ∀ l : List (ℚ × ℚ × ℚ), (∀ p ∈ l, 0 ≤ p.2.1) → 0 ≤ wsum l := by
  intro l
  induction l with
  | nil => intro _; simp [wsum]
  | cons x t ih =>
    intro hall
    have hx := hall x (List.mem_cons_self x t)
    have ht := ih fun p hp => hall p (List.mem_cons_of_mem _ hp)
    simp only [wsum, List.map_cons, List.sum_cons] at *
    linarith

theorem wsum_pos : ∀ l : List (ℚ × ℚ × ℚ), (∀ p ∈ l, 0 < p.2.1) → l ≠ [] → 0 < wsum l := by
  intro l hall hne
  cases l with
  | nil => exact absurd rfl hne
  | cons x t =>
    have hx := hall x (List.mem_cons_self x t)
    have ht := wsum_nonneg t fun p hp => le_of_lt (hall p (List.mem_cons_of_mem _ hp))
    simp only [wsum, List.map_cons, List.sum_cons]
    simp only [wsum] at ht
    linarith

theorem buildData_weight_pos {radius : ℚ} {maxAge : ℤ} {fetch : ℤ → Reading} :
    ∀ sensors : List SelectedSensor, (∀ s ∈ sensors, s.dist < radius) →
      ∀ p ∈ buildData radius maxAge fetch sensors, 0 < p.2.1 := by
  intro sensors
  induction sensors with
  | nil => intro _ p h; simp [buildData] at h
  | cons i rest ih =>
    intro hall p h
    have hi : i.dist < radius := hall i (List.mem_cons_self i rest)
    simp only [buildData, List.mem_append] at h
    rcases h with h | h
    · rcases h with h | h <;> split_ifs at h <;> simp at h <;>
        · rw [h]; simpa using hi
    · exact ih (fun s hs => hall s (List.mem_cons_of_mem _ hs)) p h

theorem applyMask_subset {mask : List Bool} {data : List (ℚ × ℚ × ℚ)} :
    ∀ p ∈ applyMask mask data, p ∈ data := by
  intro p hp
  simp only [applyMask, List.mem_map, List.mem_filter] at hp
  rcases hp with ⟨⟨b, q⟩, ⟨hz, _⟩, rfl⟩
  exact (List.of_mem_zip hz).2

theorem outlierStep_subset {verbose : Bool} {mask : List Bool} {data : List (ℚ × ℚ × ℚ)} :
    ∀ p ∈ outlierStep verbose mask data, p ∈ data := by
  intro p hp
  unfold outlierStep at hp
  split_ifs at hp
  · exact applyMask_subset p hp
  · exact hp

theorem outlierStep_false {mask : List Bool} {data : List (ℚ × ℚ × ℚ)} :
    outlierStep false mask data = data := by
  simp [outlierStep]

theorem foldl_step_eq : ∀ (l : List (ℚ × ℚ × ℚ)) (p : ℚ × ℚ),
    l.foldl step p = (p.1 + tsumEPA l, p.2 + wsum l) := by
  intro l
  induction l with
  | nil => intro p; simp [tsumEPA, wsum]
  | cons x t ih =>
    intro p
    simp only [List.foldl_cons, ih, step, tsumEPA, wsum, List.map_cons, List.sum_cons,
      Prod.mk.injEq]
    constructor <;> ring

theorem aggFold_eq (l : List (ℚ × ℚ × ℚ)) : aggFold l = (tsumEPA l, wsum l) := by
  simp [aggFold, foldl_step_eq]

end Purple
namespace Purple

/-! ### Claim theorems -/

/-- C1: evaluation of the code at the failing input.  With `verbose` unset, a
working set of 99 points at raw 10.0 plus one point at raw 1000.0, whose last
point the detector flags as an outlier (mask entry `false`), is passed on to
correction and aggregation UNCHANGED: the flagged point is not removed, because
`data = data[mask]` sits inside `if verbose and noutliers > 0:`. -/
theorem c1_outlier_kept_eval :
    outlierStep false (List.replicate 99 true ++ [false])
        (List.replicate 99 ((10 : ℚ), (1 : ℚ), (50 : ℚ)) ++ [(1000, 1, 50)])
      = List.replicate 99 ((10 : ℚ), (1 : ℚ), (50 : ℚ)) ++ [(1000, 1, 50)] := by
  simp [outlierStep]

/-- C2 counterexample: a surviving point of weight 0 gives weight sum 0, and the
numeric core silently returns the ordinary success value `501` (the NaN-derived
sentinel), not a distinct DegenerateAggregation / "no data" failure. -/
theorem c2_counterexample :
    runCore false [true] [((10 : ℚ), (0 : ℚ), (50 : ℚ))] = Except.ok 501 := by
  norm_num [runCore, outlierStep, applyMask, aggFold, step, EPA]

/-- C2 amended: when the surviving weight sum is zero the code does not report a
distinct failure: with an empty batch it raises `IndexError`; when the outlier
step removed every point it raises `ZeroDivisionError`; and when surviving
points exist with weight sum zero the NaN-derived sentinel 501 is returned as
an ordinary result. -/
theorem c2_amended (verbose : Bool) (mask : List Bool) (data : List (ℚ × ℚ × ℚ)) :
    runCore verbose mask [] = Except.error PipeError.indexError
    ∧ (data ≠ [] → outlierStep verbose mask data = [] →
        runCore verbose mask data = Except.error PipeError.zeroDivisionError)
    ∧ (data ≠ [] → outlierStep verbose mask data ≠ [] →
        wsum (outlierStep verbose mask data) = 0 →
        runCore verbose mask data = Except.ok 501) := by
  refine ⟨by simp [runCore], fun h1 h2 => ?_, fun h1 h2 h3 => ?_⟩
  · unfold runCore
    rw [if_neg h1, if_pos h2]
  · unfold runCore
    rw [if_neg h1, if_neg h2, if_pos]
    rw [aggFold_eq]
    exact h3

/-- C2 witness for the amended theorem, at two zero-weight surviving points. -/
theorem c2_amended_witness :
    runCore false [true, true] [((7 : ℚ), (0 : ℚ), (20 : ℚ)), (3, 0, 40)] = Except.ok 501 :=
  (c2_amended false [true, true] [(7, 0, 20), (3, 0, 40)]).2.2 (by simp)
    (by simp [outlierStep]) (by norm_num [outlierStep, wsum])

/-- C3 counterexample: with an empty sensor directory (GeoFilter selects zero
sensors) the pipeline terminates with an unhandled `IndexError` — a crash —
rather than propagating a typed NoCandidateSensors empty-result condition. -/
theorem c3_counterexample :
    pipeline dist0 false 1 30 10 [] fetch0 [] = Except.error PipeError.indexError := by
  norm_num [pipeline, runCore, geoFilter, geoFilterGo, buildData]

/-- C3 amended: when GeoFilter selects zero sensors, or every fetched channel
reading is rejected by the validator, the pipeline raises an unhandled
`IndexError` at the empty-array column extraction — before the outlier,
correction and aggregation steps — instead of a typed empty-result condition. -/
theorem c3_amended (dist : ℚ → ℚ → ℚ) (verbose : Bool) (radius : ℚ) (maxS maxAge : ℤ)
    (dir : List SensorRecord) (fetch : ℤ → Reading) (mask : List Bool) :
    (geoFilter dist radius maxS dir = [] →
      pipeline dist verbose radius maxS maxAge dir fetch mask =
        Except.error PipeError.indexError)
    ∧ (buildData radius maxAge fetch (geoFilter dist radius maxS dir) = [] →
      pipeline dist verbose radius maxS maxAge dir fetch mask =
        Except.error PipeError.indexError) := by
  constructor
  · intro h
    unfold pipeline
    rw [h]
    simp [buildData, runCore]
  · intro h
    unfold pipeline
    rw [h]
    simp [runCore]

/-- C3 witness: one qualifying sensor whose two channels are both stale
(age ≥ max-age), so the validated set is empty and the pipeline crashes. -/
theorem c3_amended_witness :
    pipeline dist0 false 1 30 10 [sensor0] fetchStale [] =
      Except.error PipeError.indexError :=
  (c3_amended dist0 false 1 30 10 [sensor0] fetchStale []).2
    (by norm_num [geoFilter, geoFilterGo, sensorPred, dist0, sensor0, buildData, validate,
      fetchStale, PM_25_LOWER_LIMIT, PM_25_UPPER_LIMIT])

/-- C4 counterexample: on an empty input batch — the case in which the anomaly
detector cannot run — the invocation fails with an unhandled `IndexError`; the
pipeline does not degrade to "no outliers removed". -/
theorem c4_counterexample :
    runCore true [] [] = Except.error PipeError.indexError := by
  simp [runCore]

/-- C4 amended: there is no local recovery around the detector: an empty batch
makes the whole invocation fail with an unhandled error; for a non-empty batch
whose surviving set is non-empty the detector stage always runs and the core
returns a value. -/
theorem c4_amended (verbose : Bool) (mask : List Bool) (data : List (ℚ × ℚ × ℚ)) :
    runCore verbose mask [] = Except.error PipeError.indexError
    ∧ (data ≠ [] → outlierStep verbose mask data ≠ [] →
        ∃ z : ℤ, runCore verbose mask data = Except.ok z) := by
  constructor
  · simp [runCore]
  · intro h1 h2
    unfold runCore
    rw [if_neg h1, if_neg h2]
    split_ifs
    · exact ⟨501, rfl⟩
    · exact ⟨_, rfl⟩

/-- C4 witness: a singleton batch is processed to a successful value. -/
theorem c4_amended_witness :
    ∃ z : ℤ, runCore false [true] [((10 : ℚ), (1 : ℚ), (0 : ℚ))] = Except.ok z :=
  (c4_amended false [true] [(10, 1, 0)]).2 (by simp) (by simp [outlierStep])

/-- C5 counterexample: with `max_sensors = 0` the break test
`len(sensors) == max_sensors`, performed only after an append, never fires, so
GeoFilter returns 1 > 0 entries — the cap is violated. -/
theorem c5_counterexample :
    ¬ (geoFilter dist0 2 0 [sensor1]).length ≤ 0 := by
  norm_num [geoFilter, geoFilterGo, sensorPred, dist0, sensor1]

/-- C5 amended: for every POSITIVE maximum sensor count, GeoFilter returns
exactly the qualifying sensors (coordinates present, location type "outside",
hidden flag the string "false", injected distance strictly below the radius) in
directory order, truncated to the first `max_sensors` of them. -/
theorem c5_corrected (dist : ℚ → ℚ → ℚ) (radius : ℚ) (maxS : ℤ)
    (dir : List SensorRecord) (h : 1 ≤ maxS) :
    geoFilter dist radius maxS dir = (selectAll dist radius dir).take maxS.toNat
    ∧ (geoFilter dist radius maxS dir).length ≤ maxS.toNat := by
  have h0 : (0 : ℤ) < maxS := h
  have heq := @geoFilterGo_eq_take dist radius maxS dir 0 h0
  have hsub : (maxS - 0).toNat = maxS.toNat := by omega
  rw [hsub] at heq
  refine ⟨heq, ?_⟩
  rw [geoFilter, heq]
  exact List.length_take_le _ _

/-- C5 witness: cap 1 on a two-sensor directory returns the first qualifier. -/
theorem c5_corrected_witness :
    geoFilter dist0 2 1 [sensor0, sensor1] =
        (selectAll dist0 2 [sensor0, sensor1]).take (1 : ℤ).toNat
    ∧ (geoFilter dist0 2 1 [sensor0, sensor1]).length ≤ (1 : ℤ).toNat :=
  c5_corrected dist0 2 1 [sensor0, sensor1] (by norm_num)

/-- C6: the aggregation loop computes the proximity-weighted average
`Σ(EPA(raw_i, humidity_i) · weight_i) / Σ(weight_i)`; two equal-weight points
with corrected concentrations 10 and 20 aggregate to 15; a zero-weight point
contributes nothing. -/
theorem c6_aggregator (pts : List (ℚ × ℚ × ℚ)) (_hw : 0 < wsum pts) :
    aggregate pts = tsumEPA pts / wsum pts
    ∧ (∀ w a1 b1 a2 b2 : ℚ, 0 < w → EPA a1 b1 = 10 → EPA a2 b2 = 20 →
        aggregate [(a1, w, b1), (a2, w, b2)] = 15)
    ∧ (∀ (x h : ℚ) (rest : List (ℚ × ℚ × ℚ)),
        aggregate ((x, 0, h) :: rest) = aggregate rest) := by
  refine ⟨?_, ?_, ?_⟩
  · rw [aggregate, aggFold_eq]
  · intro w a1 b1 a2 b2 hwpos e1 e2
    rw [aggregate, aggFold_eq]
    simp only [tsumEPA, wsum, List.map_cons, List.map_nil, List.sum_cons, List.sum_nil,
      e1, e2]
    rw [div_eq_iff (by linarith)]
    ring
  · intro x h rest
    have hs : step (0, 0) (x, 0, h) = (0, 0) := by
      simp [step]
    rw [aggregate, aggregate, aggFold, aggFold, List.foldl_cons, hs]

/-- C6 witness: a singleton of weight 1 has positive weight sum, and the
amended conjuncts evaluate as stated there. -/
theorem c6_aggregator_witness :
    aggregate [((10 : ℚ), (1 : ℚ), (0 : ℚ))] =
      tsumEPA [((10 : ℚ), (1 : ℚ), (0 : ℚ))] / wsum [((10 : ℚ), (1 : ℚ), (0 : ℚ))] :=
  (c6_aggregator [(10, 1, 0)] (by norm_num [wsum])).1

/-- C7: the AQI conversion rounds to one decimal, takes the first matching
inclusive-inclusive breakpoint row and interpolates linearly; `AQI 0 = 0`,
`AQI 12 = 50`, `AQI 35.4 = 100`, `AQI 23.75 ∈ [75, 76)`, `AQI 500.5 = 501`,
every rounded concentration above 500.4 maps to the sentinel 501, and on the
second row the interpolation formula is returned verbatim. -/
theorem c7_AQI :
    AQI 0 = 0 ∧ AQI 12 = 50 ∧ AQI 35.4 = 100
    ∧ (75 ≤ AQI 23.75 ∧ AQI 23.75 < 76)
    ∧ AQI 500.5 = 501
    ∧ (∀ q : ℚ, 500.4 < round1 q → AQI q = 501)
    ∧ (∀ q : ℚ, 12.1 ≤ round1 q → round1 q ≤ 35.4 →
        AQI q = (100 - 51) / (35.4 - 12.1) * (round1 q - 12.1) + 51) := by
  refine ⟨by norm_num [AQI, AQIscan, breakpoints, round1, pyRoundInt],
    by norm_num [AQI, AQIscan, breakpoints, round1, pyRoundInt],
    by norm_num [AQI, AQIscan, breakpoints, round1, pyRoundInt],
    ⟨by norm_num [AQI, AQIscan, breakpoints, round1, pyRoundInt],
     by norm_num [AQI, AQIscan, breakpoints, round1, pyRoundInt]⟩,
    by norm_num [AQI, AQIscan, breakpoints, round1, pyRoundInt], ?_, ?_⟩
  · intro q hq
    simp only [AQI, breakpoints, AQIscan]
    split_ifs with h1 h2 h3 h4 h5 h6 h7
    · exact absurd h1.2 (by linarith)
    · exact absurd h2.2 (by linarith)
    · exact absurd h3.2 (by linarith)
    · exact absurd h4.2 (by linarith)
    · exact absurd h5.2 (by linarith)
    · exact absurd h6.2 (by linarith)
    · exact absurd h7.2 (by linarith)
    · rfl
  · intro q hq1 hq2
    simp only [AQI, breakpoints, AQIscan]
    split_ifs with h1 h2
    · exact absurd h1.2 (by linarith)
    · rfl
    all_goals exact absurd ⟨hq1, hq2⟩ h2

/-- C7 witness: concrete inputs discharging the hypothesis-bearing conjuncts:
rounded 500.6 exceeds 500.4 and maps to 501; rounded 23.8 lies in the second
row and is interpolated. -/
theorem c7_AQI_witness :
    AQI 500.6 = 501
    ∧ AQI 23.75 = (100 - 51) / (35.4 - 12.1) * (round1 23.75 - 12.1) + 51 :=
  ⟨c7_AQI.2.2.2.2.2.1 500.6 (by norm_num [round1, pyRoundInt]),
   c7_AQI.2.2.2.2.2.2 23.75 (by norm_num [round1, pyRoundInt])
     (by norm_num [round1, pyRoundInt])⟩

/-- C8: the per-channel validator accepts iff
`age < max-age ∧ lower ≤ raw ∧ raw < upper ∧ 0 ≤ weight`; raw at the upper
limit is rejected, raw at the lower limit (otherwise valid) is accepted, and a
stale reading is rejected whatever its value. -/
theorem c8_validator :
    (∀ (maxAge age : ℤ) (raw d : ℚ),
        validate maxAge age raw d = true ↔
          (age < maxAge ∧ PM_25_LOWER_LIMIT ≤ raw ∧ raw < PM_25_UPPER_LIMIT ∧ 0 ≤ d))
    ∧ (∀ (maxAge age : ℤ) (d : ℚ), validate maxAge age PM_25_UPPER_LIMIT d = false)
    ∧ (∀ (maxAge age : ℤ) (d : ℚ), age < maxAge → 0 ≤ d →
        validate maxAge age PM_25_LOWER_LIMIT d = true)
    ∧ (∀ (maxAge age : ℤ) (raw d : ℚ), maxAge ≤ age →
        validate maxAge age raw d = false) := by
  refine ⟨?_, ?_, ?_, ?_⟩
  · intro maxAge age raw d
    simp [validate, and_assoc]
  · intro maxAge age d
    simp [validate, PM_25_UPPER_LIMIT]
  · intro maxAge age d h1 h2
    simp [validate, PM_25_LOWER_LIMIT, PM_25_UPPER_LIMIT, h1, h2]
  · intro maxAge age raw d h
    have h2 : ¬ age < maxAge := not_lt.mpr h
    simp [validate, h2]

/-- C8 witness: a fresh, in-range, zero-distance reading is accepted. -/
theorem c8_validator_witness :
    validate 10 0 PM_25_LOWER_LIMIT 1 = true :=
  c8_validator.2.2.1 10 0 1 (by norm_num) (by norm_num)

/-- C9 counterexample: with `--verbose` set, the final AQI depends on the
randomised anomaly detector's verdicts, which are not a function of the
configuration, directory and readings: the same snapshot yields 182 when the
detector flags nothing and 45 when it flags the second point. -/
theorem c9_counterexample :
    pipeline dist0 true 1 30 10 [sensor0] fetch0 [true, true]
      ≠ pipeline dist0 true 1 30 10 [sensor0] fetch0 [true, false] := by
  have h1 : pipeline dist0 true 1 30 10 [sensor0] fetch0 [true, true] = Except.ok 182 := by
    norm_num [pipeline, runCore, geoFilter, geoFilterGo, sensorPred, buildData, validate,
      outlierStep, applyMask, aggFold, step, aggregate, AQI, AQIscan, breakpoints, round1,
      pyRoundInt, EPA, PM_25_LOWER_LIMIT, PM_25_UPPER_LIMIT, dist0, sensor0, fetch0, reading0,
      List.cons_ne_nil]
  have h2 : pipeline dist0 true 1 30 10 [sensor0] fetch0 [true, false] = Except.ok 45 := by
    norm_num [pipeline, runCore, geoFilter, geoFilterGo, sensorPred, buildData, validate,
      outlierStep, applyMask, aggFold, step, aggregate, AQI, AQIscan, breakpoints, round1,
      pyRoundInt, EPA, PM_25_LOWER_LIMIT, PM_25_UPPER_LIMIT, dist0, sensor0, fetch0, reading0,
      List.cons_ne_nil]
  intro h
  rw [h1, h2] at h
  exact absurd (Except.ok.inj h) (by norm_num)

/-- C9 amended: with `verbose` unset the pipeline is a deterministic pure
function of (configuration, directory, readings): the detector's random
verdicts cannot affect the result, so any two runs on an identical snapshot
agree.  (With `--verbose`, outliers are dropped and the unseeded detector's
verdicts can change the value.) -/
theorem c9_amended (dist : ℚ → ℚ → ℚ) (radius : ℚ) (maxS maxAge : ℤ)
    (dir : List SensorRecord) (fetch : ℤ → Reading) (mask1 mask2 : List Bool) :
    pipeline dist false radius maxS maxAge dir fetch mask1
      = pipeline dist false radius maxS maxAge dir fetch mask2 := by
  unfold pipeline runCore
  rw [outlierStep_false, outlierStep_false]

/-- C10: every point of the validated working set built from GeoFilter's
selection has proximity weight `radius - distance > 0` (selection requires
distance < radius); hence the weight sum over any non-empty surviving set —
before or after the outlier step — is strictly positive, so "points exist but
weight sum is zero" is unreachable through the pipeline itself. -/
theorem c10_weights (dist : ℚ → ℚ → ℚ) (radius : ℚ) (maxS maxAge : ℤ)
    (dir : List SensorRecord) (fetch : ℤ → Reading) (verbose : Bool) (mask : List Bool) :
    (∀ p ∈ buildData radius maxAge fetch (geoFilter dist radius maxS dir), 0 < p.2.1)
    ∧ (buildData radius maxAge fetch (geoFilter dist radius maxS dir) ≠ [] →
        0 < wsum (buildData radius maxAge fetch (geoFilter dist radius maxS dir)))
    ∧ (∀ p ∈ outlierStep verbose mask
          (buildData radius maxAge fetch (geoFilter dist radius maxS dir)), 0 < p.2.1)
    ∧ (outlierStep verbose mask
          (buildData radius maxAge fetch (geoFilter dist radius maxS dir)) ≠ [] →
        0 < wsum (outlierStep verbose mask
          (buildData radius maxAge fetch (geoFilter dist radius maxS dir)))) := by
  have hp : ∀ p ∈ buildData radius maxAge fetch (geoFilter dist radius maxS dir),
      0 < p.2.1 :=
    buildData_weight_pos _ fun s hs => geoFilter_mem hs
  have hp2 : ∀ p ∈ outlierStep verbose mask
      (buildData radius maxAge fetch (geoFilter dist radius maxS dir)), 0 < p.2.1 :=
    fun p hpm => hp p (outlierStep_subset p hpm)
  exact ⟨hp, fun h => wsum_pos _ hp h, hp2, fun h => wsum_pos _ hp2 h⟩

/-- C10 witness: a concrete one-sensor run has a non-empty surviving set with
strictly positive weight sum. -/
theorem c10_weights_witness :
    0 < wsum (outlierStep false [] (buildData 1 10 fetch0 (geoFilter dist0 1 30 [sensor0]))) :=
  (c10_weights dist0 1 30 10 [sensor0] fetch0 false []).2.2.2
    (by norm_num [outlierStep, buildData, geoFilter, geoFilterGo, sensorPred, validate,
      dist0, sensor0, fetch0, reading0, PM_25_LOWER_LIMIT, PM_25_UPPER_LIMIT,
      List.cons_ne_nil])

end Purple
